import Mathlib

/-!
Shallow embedding of the gateway/logger pair of `app/gateways` (the
`TwilioGateway` class in `twilio_gateway.py` and the `FileLogger` class in
`file_logger.py`).

The provider (Twilio REST API) is an external oracle: each gateway method of
the Python source issues exactly one provider call whose outcome is either a
typed response object or a `TwilioRestException` carrying a message.  The
embedding therefore takes the provider outcome as an explicit input
(`ProviderResult`), and returns the value the Python method would return
together with the list of file-logger entries the method issues on that path.
Time (the timestamp stamped by `_write_json_log`) is likewise an explicit
input.
-/

set_option autoImplicit false

namespace TwilioManager

/-- Severity of the line emitted to the plain rotating text log
(`self.logger.info` versus `self.logger.error`). -/
inductive LogLevel where
  | info
  | error
  deriving DecidableEq, Repr

/-- Python truthiness of an `Optional[str]` value: `None` and the empty
string are falsy, every other string is truthy. -/
def truthyOptStr : Option String → Bool
  | some v => !(v == "")
  | none => false

/-- The dictionary written by `FileLogger.log_call` (JSON key `from` is the
Python argument `from_number`). -/
structure CallRecord where
  from_ : String
  to_ : String
  status : String
  sid : Option String
  duration : Option Int
  error : Option String

/-- The dictionary written by `FileLogger.log_message`.  The `body` field
holds whatever string `log_message` placed in the dictionary (the Python
code truncates before building the dictionary). -/
structure MessageRecord where
  from_ : String
  to_ : String
  status : String
  body : Option String
  sid : Option String
  error : Option String

/-- The dictionary written by `FileLogger.log_purchase`.  `price` is
`Optional[float]` in the source; every call site in the repository passes
`None`. -/
structure PurchaseRecord where
  phone_number : String
  status : String
  price : Option Float
  sid : Option String
  error : Option String

/-- The dictionary written by `FileLogger.log_error`; `details` defaults to
the empty dictionary (`details or {}` in the source, modelled as a
key/value list). -/
structure ErrorRecord where
  type_ : String
  message : String
  details : List (String × String)

/-- One structured record, tagged by the log category it is written to
(`call_*.json`, `message_*.json`, `purchase_*.json`, `error_*.json`). -/
inductive LogRecord where
  | call (r : CallRecord)
  | message (r : MessageRecord)
  | purchase (r : PurchaseRecord)
  | error (r : ErrorRecord)

/-- One invocation of a `FileLogger.log_*` method: the structured JSON
record plus the mirrored line on the plain text log. -/
structure LogEntry where
  record : LogRecord
  mirrorLevel : LogLevel
  mirrorText : String

/-- `FileLogger.log_call`: builds the call dictionary and mirrors
`"Call from {from} to {to}: {status}"`, at error severity with an
`" - Error: ..."` suffix when `error` is truthy. -/
def log_call (from_number to_number status : String) (sid : Option String)
    (duration : Option Int) (error : Option String) : LogEntry :=
  let log_msg := "Call from " ++ from_number ++ " to " ++ to_number ++ ": " ++ status
  { record := LogRecord.call
      { from_ := from_number, to_ := to_number, status := status,
        sid := sid, duration := duration, error := error }
    mirrorLevel := if truthyOptStr error then LogLevel.error else LogLevel.info
    mirrorText :=
      match error with
      | some e => if e == "" then log_msg else log_msg ++ " - Error: " ++ e
      | none => log_msg }

/-- `FileLogger.log_message`: if `body` is truthy and longer than 100
characters it is replaced by its first 97 characters followed by `"..."`
BEFORE the dictionary is built, so the stored JSON record holds the
truncated body.  The mirrored text line is
`"Message from {from} to {to}: {status}"` and never contains the body. -/
def log_message (from_number to_number status : String) (body : Option String)
    (sid : Option String) (error : Option String) : LogEntry :=
  let body' :=
    match body with
    | some b => if b ≠ "" ∧ 100 < b.length then some (b.take 97 ++ "...") else some b
    | none => none
  let log_msg := "Message from " ++ from_number ++ " to " ++ to_number ++ ": " ++ status
  { record := LogRecord.message
      { from_ := from_number, to_ := to_number, status := status,
        body := body', sid := sid, error := error }
    mirrorLevel := if truthyOptStr error then LogLevel.error else LogLevel.info
    mirrorText :=
      match error with
      | some e => if e == "" then log_msg else log_msg ++ " - Error: " ++ e
      | none => log_msg }

/-- `FileLogger.log_purchase`: builds the purchase dictionary and mirrors
`"Purchase of {phone_number}: {status}"`; when `price is not None` the
mirror appends the price in parentheses (Python formats it with two
decimals; every call site in this repository passes `None`). -/
def log_purchase (phone_number status : String) (price : Option Float)
    (sid : Option String) (error : Option String) : LogEntry :=
  let base := "Purchase of " ++ phone_number ++ ": " ++ status
  let log_msg :=
    match price with
    | some p => base ++ " ($" ++ toString p ++ ")"
    | none => base
  { record := LogRecord.purchase
      { phone_number := phone_number, status := status, price := price,
        sid := sid, error := error }
    mirrorLevel := if truthyOptStr error then LogLevel.error else LogLevel.info
    mirrorText :=
      match error with
      | some e => if e == "" then log_msg else log_msg ++ " - Error: " ++ e
      | none => log_msg }

/-- `FileLogger.log_error`: builds the error dictionary (`details or ` the
empty dictionary) and mirrors `"{error_type}: {message}"`, always at error
severity. -/
def log_error (error_type message : String)
    (details : Option (List (String × String))) : LogEntry :=
  { record := LogRecord.error
      { type_ := error_type, message := message, details := details.getD [] }
    mirrorLevel := LogLevel.error
    mirrorText := error_type ++ ": " ++ message }

/-- A record as stored in a day file: `_write_json_log` adds
`data['timestamp'] = datetime.datetime.now().isoformat()` before writing. -/
structure TimestampedRecord where
  record : LogRecord
  timestamp : String

/-- The outcome of `json.load` on a category day file, as seen by
`_write_json_log`: the file may be absent, may fail to parse
(`json.JSONDecodeError`), may hold a JSON array (the expected format),
or may hold valid JSON that is not an array. -/
inductive ParsedFile where
  | missing
  | notJson
  | jsonList (entries : List TimestampedRecord)
  | jsonNonList

/-- A Python exception escaping the logger: `logs.append(data)` raises
`AttributeError` when `json.load` returned a non-list value. -/
inductive PyError where
  | attributeError
  deriving DecidableEq, Repr

/-- `FileLogger._write_json_log`: no-op when logging is disabled; otherwise
stamps the record with `now`, treats a missing file or a
`json.JSONDecodeError` as the empty list, appends the stamped record and
rewrites the file (`Option.none` = no file written; `Option.some logs` =
the file now holds `logs`).  A file holding valid JSON that is not a list
reaches `logs.append` with a non-list value and raises `AttributeError`. -/
def _write_json_log (enabled : Bool) (file : ParsedFile) (record : LogRecord)
    (now : String) : Except PyError (Option (List TimestampedRecord)) :=
  if !enabled then Except.ok none
  else
    let entry : TimestampedRecord := { record := record, timestamp := now }
    match file with
    | ParsedFile.missing => Except.ok (some [entry])
    | ParsedFile.notJson => Except.ok (some [entry])
    | ParsedFile.jsonList logs => Except.ok (some (logs ++ [entry]))
    | ParsedFile.jsonNonList => Except.error PyError.attributeError

/-- Outcome of one SDK call: the typed response object, or a
`TwilioRestException` whose message is `str(e)`. -/
inductive ProviderResult (α : Type) where
  | ok (a : α)
  | err (msg : String)

/-- Capability flags of a phone number (`voice`/`sms`/`mms`). -/
structure Capabilities where
  voice : Bool
  sms : Bool
  mms : Bool
  deriving DecidableEq, Repr

/-- One `AvailablePhoneNumberInstance` as returned by
`client.available_phone_numbers(cc).local.list`; the capability flags come
from a dictionary, read with `.get(key, False)`, hence `Option Bool`. -/
structure AvailableNumber where
  phone_number : String
  friendly_name : String
  locality : String
  region : String
  postal_code : String
  iso_country : String
  cap_voice : Option Bool
  cap_sms : Option Bool
  cap_mms : Option Bool

/-- One entry of the list returned by
`TwilioGateway.search_phone_numbers`. -/
structure PhoneNumberResult where
  phone_number : String
  friendly_name : String
  locality : String
  region : String
  postal_code : String
  iso_country : String
  capabilities : Capabilities

/-- The dictionary conversion inside `search_phone_numbers`. -/
def availableToResult (n : AvailableNumber) : PhoneNumberResult :=
  { phone_number := n.phone_number
    friendly_name := n.friendly_name
    locality := n.locality
    region := n.region
    postal_code := n.postal_code
    iso_country := n.iso_country
    capabilities :=
      { voice := n.cap_voice.getD false
        sms := n.cap_sms.getD false
        mms := n.cap_mms.getD false } }

/-- `TwilioGateway.search_phone_numbers`: on a provider response, maps each
number to a dictionary and sets `has_more = len(numbers) >= limit`; on a
`TwilioRestException`, logs one error record and returns `([], False)`.
(Only `TwilioRestException` is caught in the source; the provider outcome
is the `ProviderResult` input.) -/
def search_phone_numbers (resp : ProviderResult (List AvailableNumber))
    (limit : Nat) : (List PhoneNumberResult × Bool) × List LogEntry :=
  match resp with
  | ProviderResult.ok numbers =>
      let results := numbers.map availableToResult
      let has_more := decide (numbers.length ≥ limit)
      ((results, has_more), [])
  | ProviderResult.err e =>
      (([], false),
       [log_error "twilio_search" ("Error searching for phone numbers: " ++ e) none])

/-- The parsed JSON body of the raw availability endpoint, as used by the
caller of `search_phone_numbers_raw` (the non-200 branch substitutes a body
with an empty `available_phone_numbers` array). -/
structure RawSearchBody where
  available_phone_numbers : List AvailableNumber

/-- Outcome of `requests.get` on the raw search URL: a transport-level
exception (connection error, timeout, ...) or an HTTP response with a
status code, a text payload, and a parsed JSON body. -/
inductive RawHttp where
  | transportError (msg : String)
  | response (status_code : Nat) (text : String) (body : RawSearchBody)

/-- `TwilioGateway.search_phone_numbers_raw`: nothing guards the
`requests.get` call, so a transport-level exception propagates to the
caller (`Except.error`).  A non-200 HTTP status is normalized: one error
record is logged and a body with an empty number list is returned. -/
def search_phone_numbers_raw (http : RawHttp) :
    Except String (RawSearchBody × List LogEntry) :=
  match http with
  | RawHttp.transportError msg => Except.error msg
  | RawHttp.response status_code text body =>
      if status_code == 200 then Except.ok (body, [])
      else
        let error_msg := "Error " ++ toString status_code ++ ": " ++ text
        Except.ok ({ available_phone_numbers := [] },
                   [log_error "twilio_search_raw" error_msg none])

/-- An `IncomingPhoneNumberInstance` as returned by
`client.incoming_phone_numbers.create` / `.fetch` / `.update`. -/
structure IncomingNumber where
  sid : String
  phone_number : String
  friendly_name : String
  date_created : String
  capabilities : Capabilities
  voice_url : String
  sms_url : String
  voice_method : String
  sms_method : String

/-- The dictionary returned by `purchase_phone_number`.  The success branch
fills `sid`/`phone_number`/`friendly_name`/`date_created`/`capabilities`
from the provider response; the failure branch has only
`success`/`error`/`phone_number` (missing keys are `none`). -/
structure PurchaseResult where
  success : Bool
  sid : Option String
  phone_number : Option String
  friendly_name : Option String
  date_created : Option String
  capabilities : Option Capabilities
  error : Option String

/-- `TwilioGateway.purchase_phone_number`.  (The optional `friendly_name`
argument of the source only shapes the outbound request `kwargs`, never the
returned dictionary or the log, so it is not a parameter here; the
provider response is the `ProviderResult` input.)  Success logs one
purchase record with status `'purchased'` and `price=None`; a
`TwilioRestException` logs one purchase record with status `'failed'`
carrying the error text, and the failure dictionary echoes the input
phone number. -/
def purchase_phone_number (resp : ProviderResult IncomingNumber)
    (phone_number : String) : PurchaseResult × List LogEntry :=
  match resp with
  | ProviderResult.ok n =>
      ({ success := true
         sid := some n.sid
         phone_number := some n.phone_number
         friendly_name := some n.friendly_name
         date_created := some n.date_created
         capabilities := some n.capabilities
         error := none },
       [log_purchase n.phone_number "purchased" none (some n.sid) none])
  | ProviderResult.err e =>
      let error_msg := "Error purchasing phone number: " ++ e
      ({ success := false
         sid := none
         phone_number := some phone_number
         friendly_name := none
         date_created := none
         capabilities := none
         error := some error_msg },
       [log_purchase phone_number "failed" none none (some error_msg)])

/-- Provider behavior seen by `release_phone_number`, which first fetches
the number (to capture its phone-number string) and then deletes it: the
fetch may raise, the delete may raise after a successful fetch, or both
may succeed. -/
inductive ReleaseProvider where
  | fetchErr (msg : String)
  | deleteErr (fetched : IncomingNumber) (msg : String)
  | ok (fetched : IncomingNumber)

/-- `TwilioGateway.release_phone_number`: on success logs one purchase
record with status `'released'` for the fetched phone number and returns
`True`; a `TwilioRestException` from either the fetch or the delete is
caught, one error record is logged and `False` is returned. -/
def release_phone_number (resp : ReleaseProvider) (sid : String) :
    Bool × List LogEntry :=
  match resp with
  | ReleaseProvider.ok n =>
      (true, [log_purchase n.phone_number "released" none (some sid) none])
  | ReleaseProvider.fetchErr e =>
      (false, [log_error "twilio_release" ("Error releasing phone number: " ++ e) none])
  | ReleaseProvider.deleteErr _ e =>
      (false, [log_error "twilio_release" ("Error releasing phone number: " ++ e) none])

/-- The optional arguments of `update_phone_number`; a field is sent to the
provider exactly when it `is not None` (partial-update semantics). -/
structure UpdateParams where
  friendly_name : Option String
  sms_url : Option String
  sms_method : Option String
  voice_url : Option String
  voice_method : Option String

/-- The `kwargs` dictionary built by `update_phone_number`: only the
supplied (non-`None`) fields, in source order. -/
def update_kwargs (p : UpdateParams) : List (String × String) :=
  (match p.friendly_name with | some v => [("friendly_name", v)] | none => []) ++
  (match p.sms_url with | some v => [("sms_url", v)] | none => []) ++
  (match p.sms_method with | some v => [("sms_method", v)] | none => []) ++
  (match p.voice_url with | some v => [("voice_url", v)] | none => []) ++
  (match p.voice_method with | some v => [("voice_method", v)] | none => [])

/-- The dictionary returned by `update_phone_number` (failure branch has
only `success`/`error`/`sid`). -/
structure UpdateResult where
  success : Bool
  sid : Option String
  phone_number : Option String
  friendly_name : Option String
  voice_url : Option String
  sms_url : Option String
  voice_method : Option String
  sms_method : Option String
  error : Option String

/-- `TwilioGateway.update_phone_number`: sends `update_kwargs p`, and on
success returns the updated fields WITHOUT writing any log entry; a
`TwilioRestException` logs one error record and returns a failure
dictionary echoing the input `sid`.  The outbound `kwargs` are the first
component of the result. -/
def update_phone_number (resp : ProviderResult IncomingNumber) (sid : String)
    (p : UpdateParams) : List (String × String) × UpdateResult × List LogEntry :=
  let kwargs := update_kwargs p
  match resp with
  | ProviderResult.ok n =>
      (kwargs,
       { success := true
         sid := some n.sid
         phone_number := some n.phone_number
         friendly_name := some n.friendly_name
         voice_url := some n.voice_url
         sms_url := some n.sms_url
         voice_method := some n.voice_method
         sms_method := some n.sms_method
         error := none },
       [])
  | ProviderResult.err e =>
      let error_msg := "Error updating phone number: " ++ e
      (kwargs,
       { success := false
         sid := some sid
         phone_number := none
         friendly_name := none
         voice_url := none
         sms_url := none
         voice_method := none
         sms_method := none
         error := some error_msg },
       [log_error "twilio_update" error_msg none])

/-- A `CallInstance` as returned by `client.calls.create`. -/
structure CallResource where
  sid : String
  status : String
  direction : String
  date_created : String

/-- The dictionary returned by `make_call` (failure branch has only
`success`/`error`/`from`/`to`). -/
structure CallResult where
  success : Bool
  sid : Option String
  status : Option String
  from_ : String
  to_ : String
  direction : Option String
  date_created : Option String
  error : Option String

/-- `TwilioGateway.make_call`: the request `kwargs` always hold `to` and
`from_`; then `if url:` adds the url, `elif twiml:` adds the twiml (Python
truthiness — so a supplied url shadows any supplied twiml, and an empty
url falls through to the twiml).  Success logs one call record with the
provider's status; a `TwilioRestException` logs one call record with
status `'failed'` and the error text.  The outbound `kwargs` are the first
component of the result. -/
def make_call (resp : ProviderResult CallResource)
    (from_number to_number : String) (url twiml : Option String) :
    List (String × String) × CallResult × List LogEntry :=
  let kwargs := [("to", to_number), ("from_", from_number)] ++
    (if truthyOptStr url then [("url", url.getD "")]
     else if truthyOptStr twiml then [("twiml", twiml.getD "")]
     else [])
  match resp with
  | ProviderResult.ok call =>
      (kwargs,
       { success := true
         sid := some call.sid
         status := some call.status
         from_ := from_number
         to_ := to_number
         direction := some call.direction
         date_created := some call.date_created
         error := none },
       [log_call from_number to_number call.status (some call.sid) none none])
  | ProviderResult.err e =>
      let error_msg := "Error making call: " ++ e
      (kwargs,
       { success := false
         sid := none
         status := none
         from_ := from_number
         to_ := to_number
         direction := none
         date_created := none
         error := some error_msg },
       [log_call from_number to_number "failed" none none (some error_msg)])

/-- A `MessageInstance` as returned by `client.messages.create`. -/
structure MessageResource where
  sid : String
  status : String
  date_created : String

/-- The dictionary returned by `send_message` (failure branch has only
`success`/`error`/`from`/`to`/`body`). -/
structure MessageResult where
  success : Bool
  sid : Option String
  status : Option String
  from_ : String
  to_ : String
  body : String
  date_created : Option String
  error : Option String

/-- `TwilioGateway.send_message`: success logs one message record through
`log_message` with the provider status and the ORIGINAL body argument
(`log_message` itself truncates it before storing); a
`TwilioRestException` logs one message record with status `'failed'` and
the error text.  Both the returned dictionary's `body` and the value
passed to the logger are the untouched input body. -/
def send_message (resp : ProviderResult MessageResource)
    (from_number to_number body : String) : MessageResult × List LogEntry :=
  match resp with
  | ProviderResult.ok m =>
      ({ success := true
         sid := some m.sid
         status := some m.status
         from_ := from_number
         to_ := to_number
         body := body
         date_created := some m.date_created
         error := none },
       [log_message from_number to_number m.status (some body) (some m.sid) none])
  | ProviderResult.err e =>
      let error_msg := "Error sending message: " ++ e
      ({ success := false
         sid := none
         status := none
         from_ := from_number
         to_ := to_number
         body := body
         date_created := none
         error := some error_msg },
       [log_message from_number to_number "failed" (some body) none (some error_msg)])

/-- One `CallInstance` of the history returned by `client.calls.list`. -/
structure ProviderCall where
  sid : String
  from_ : String
  to_ : String
  status : String
  direction : String
  duration : Option Int
  price : Option String
  date_created : String

/-- One entry of the list returned by `get_call_logs`. -/
structure CallLogEntry where
  sid : String
  from_ : String
  to_ : String
  status : String
  direction : String
  duration : Option Int
  price : Option String
  date_created : String

/-- The dictionary conversion inside `get_call_logs`. -/
def providerCallToDict (c : ProviderCall) : CallLogEntry :=
  { sid := c.sid, from_ := c.from_, to_ := c.to_, status := c.status,
    direction := c.direction, duration := c.duration, price := c.price,
    date_created := c.date_created }

/-- `TwilioGateway.get_call_logs`: maps the provider's history list (the
`limit` argument is only forwarded to the provider); success writes no log
entry, a `TwilioRestException` logs one error record and returns `[]`. -/
def get_call_logs (resp : ProviderResult (List ProviderCall)) (limit : Nat) :
    List CallLogEntry × List LogEntry :=
  match resp with
  | ProviderResult.ok calls => (calls.map providerCallToDict, [])
  | ProviderResult.err e =>
      ([], [log_error "twilio_call_logs" ("Error getting call logs: " ++ e) none])

/-- One `MessageInstance` of the history returned by
`client.messages.list`. -/
structure ProviderMessage where
  sid : String
  from_ : String
  to_ : String
  body : String
  status : String
  direction : String
  price : Option String
  date_created : String

/-- One entry of the list returned by `get_message_logs`. -/
structure MessageLogEntry where
  sid : String
  from_ : String
  to_ : String
  body : String
  status : String
  direction : String
  price : Option String
  date_created : String

/-- The dictionary conversion inside `get_message_logs`. -/
def providerMessageToDict (m : ProviderMessage) : MessageLogEntry :=
  { sid := m.sid, from_ := m.from_, to_ := m.to_, body := m.body,
    status := m.status, direction := m.direction, price := m.price,
    date_created := m.date_created }

/-- `TwilioGateway.get_message_logs`: maps the provider's history list;
success writes no log entry, a `TwilioRestException` logs one error record
and returns `[]`. -/
def get_message_logs (resp : ProviderResult (List ProviderMessage)) (limit : Nat) :
    List MessageLogEntry × List LogEntry :=
  match resp with
  | ProviderResult.ok messages => (messages.map providerMessageToDict, [])
  | ProviderResult.err e =>
      ([], [log_error "twilio_message_logs" ("Error getting message logs: " ++ e) none])

/-- An `AccountInstance` as returned by `client.api.accounts(sid).fetch`. -/
structure AccountResource where
  sid : String
  friendly_name : String
  status : String
  type_ : String
  date_created : String
  date_updated : String

/-- The dictionary returned by `get_account_info` (the failure branch is
the error-shaped dictionary, holding only the `error` key with the raw
`str(e)`). -/
structure AccountInfoResult where
  sid : Option String
  friendly_name : Option String
  status : Option String
  type_ : Option String
  date_created : Option String
  date_updated : Option String
  error : Option String

/-- `TwilioGateway.get_account_info`: success returns the account fields
and writes no log entry; a `TwilioRestException` logs one error record of
type `'twilio_account_info'` (prefixed message) and returns an
error-shaped dictionary holding the raw `str(e)`. -/
def get_account_info (resp : ProviderResult AccountResource) :
    AccountInfoResult × List LogEntry :=
  match resp with
  | ProviderResult.ok account =>
      ({ sid := some account.sid
         friendly_name := some account.friendly_name
         status := some account.status
         type_ := some account.type_
         date_created := some account.date_created
         date_updated := some account.date_updated
         error := none },
       [])
  | ProviderResult.err e =>
      ({ sid := none
         friendly_name := none
         status := none
         type_ := none
         date_created := none
         date_updated := none
         error := some e },
       [log_error "twilio_account_info" ("Error getting account info: " ++ e) none])

/-- The `body` field of a message record (`none` for the other
categories). -/
def LogRecord.messageBody : LogRecord → Option String
  | LogRecord.message r => r.body
  | _ => none

/-- A 101-character message body, used to exercise the truncation branch
of `log_message`. -/
def longBody : String := String.mk (List.replicate 101 'a')

/-- A concrete `IncomingPhoneNumberInstance` response. -/
def sampleIncoming : IncomingNumber :=
  { sid := "PN123", phone_number := "+14155550100", friendly_name := "Main",
    date_created := "2026-01-01", capabilities := { voice := true, sms := true, mms := false },
    voice_url := "", sms_url := "", voice_method := "POST", sms_method := "POST" }

/-- An `update_phone_number` call with every optional argument omitted. -/
def emptyUpdateParams : UpdateParams :=
  { friendly_name := none, sms_url := none, sms_method := none,
    voice_url := none, voice_method := none }

/-- A concrete `AvailablePhoneNumberInstance` response. -/
def sampleAvailable : AvailableNumber :=
  { phone_number := "+14155550100", friendly_name := "(415) 555-0100",
    locality := "San Francisco", region := "CA", postal_code := "94105",
    iso_country := "US", cap_voice := some true, cap_sms := some true, cap_mms := none }

/-- C1 (counterexample): a successful `update_phone_number` invocation
writes no log entry at all, refuting "each invocation writes exactly one
LogRecord before returning" for the update operation. -/
theorem update_success_writes_no_log_entry :
    (update_phone_number (ProviderResult.ok sampleIncoming) "PN123" emptyUpdateParams).2.2
      = [] := rfl

/-- C1 (amended): purchase, release, call and sendMessage write exactly one
log entry on every path; update, search and the log-fetching operations
write exactly one entry on failure and none on success. -/
theorem gateway_log_entry_counts :
    (∀ n pn, ((purchase_phone_number (ProviderResult.ok n) pn).2).length = 1) ∧
    (∀ e pn, ((purchase_phone_number (ProviderResult.err e) pn).2).length = 1) ∧
    (∀ resp sid, ((release_phone_number resp sid).2).length = 1) ∧
    (∀ resp f t url twiml, ((make_call resp f t url twiml).2.2).length = 1) ∧
    (∀ resp f t b, ((send_message resp f t b).2).length = 1) ∧
    (∀ e sid p, ((update_phone_number (ProviderResult.err e) sid p).2.2).length = 1) ∧
    (∀ n sid p, ((update_phone_number (ProviderResult.ok n) sid p).2.2).length = 0) ∧
    (∀ e limit, ((search_phone_numbers (ProviderResult.err e) limit).2).length = 1) ∧
    (∀ ns limit, ((search_phone_numbers (ProviderResult.ok ns) limit).2).length = 0) ∧
    (∀ e limit, ((get_call_logs (ProviderResult.err e) limit).2).length = 1) ∧
    (∀ cs limit, ((get_call_logs (ProviderResult.ok cs) limit).2).length = 0) ∧
    (∀ e limit, ((get_message_logs (ProviderResult.err e) limit).2).length = 1) ∧
    (∀ ms limit, ((get_message_logs (ProviderResult.ok ms) limit).2).length = 0) := by
  refine ⟨fun _ _ => rfl, fun _ _ => rfl, ?_, ?_, ?_,
          fun _ _ _ => rfl, fun _ _ _ => rfl, fun _ _ => rfl, fun _ _ => rfl,
          fun _ _ => rfl, fun _ _ => rfl, fun _ _ => rfl, fun _ _ => rfl⟩
  · intro resp sid; cases resp <;> rfl
  · intro resp f t url twiml; cases resp <;> rfl
  · intro resp f t b; cases resp <;> rfl

set_option maxRecDepth 8192 in
/-- C2 (counterexample): for a 101-character body the structured JSON
record does NOT keep the full body, and the text-mirror line is the plain
`"Message from F to T: queued"` — it contains no body and no trailing
ellipsis marker. -/
theorem log_message_truncation_counterexample :
    (log_message "F" "T" "queued" (some longBody) none none).record.messageBody
      ≠ some longBody ∧
    (log_message "F" "T" "queued" (some longBody) none none).mirrorText
      = "Message from F to T: queued" := by
  constructor
  · decide
  · rfl

/-- C2 (amended): a body longer than 100 characters is stored in the
structured message record already truncated to its first 97 characters
plus `"..."`; the mirror line is independent of the body; and
`send_message` passes the original body to `log_message` on both paths. -/
theorem log_message_truncates_record_body
    (from_number to_number status b : String) (sid error : Option String)
    (h : 100 < b.length) :
    ((log_message from_number to_number status (some b) sid error).record =
      LogRecord.message
        { from_ := from_number, to_ := to_number, status := status,
          body := some (b.take 97 ++ "..."), sid := sid, error := error }) ∧
    (∀ b₁ b₂ : Option String,
      (log_message from_number to_number status b₁ sid error).mirrorText =
      (log_message from_number to_number status b₂ sid error).mirrorText) ∧
    (∀ m : MessageResource,
      (send_message (ProviderResult.ok m) from_number to_number b).2 =
      [log_message from_number to_number m.status (some b) (some m.sid) none]) ∧
    (∀ e : String,
      (send_message (ProviderResult.err e) from_number to_number b).2 =
      [log_message from_number to_number "failed" (some b) none
        (some ("Error sending message: " ++ e))]) := by
  refine ⟨?_, fun b₁ b₂ => rfl, fun m => rfl, fun e => rfl⟩
  have hb : b ≠ "" := by
    intro hb'
    rw [hb'] at h
    exact absurd h (by decide)
  simp [log_message, hb, h]

/-- C2 (witness). -/
theorem log_message_truncates_record_body_witness :
    100 < longBody.length ∧
    (log_message "F" "T" "queued" (some longBody) none none).record =
      LogRecord.message
        { from_ := "F", to_ := "T", status := "queued",
          body := some (longBody.take 97 ++ "..."), sid := none, error := none } :=
  ⟨by decide,
   (log_message_truncates_record_body "F" "T" "queued" longBody none none (by decide)).1⟩

/-- C3 (counterexample): a failing `get_account_info` call DOES write an
error record to the file logger, refuting "does NOT log errors". -/
theorem get_account_info_failure_logs_counterexample :
    (get_account_info (ProviderResult.err "boom")).2 ≠ [] ∧
    (get_account_info (ProviderResult.err "boom")).2 =
      [log_error "twilio_account_info" ("Error getting account info: " ++ "boom") none] := by
  exact ⟨by simp [get_account_info], rfl⟩

/-- C3 (amended): on a provider error, `get_account_info` returns the
error-shaped record (only the raw error text) AND logs exactly one error
record, like the other gateway methods. -/
theorem get_account_info_failure_path (e : String) :
    get_account_info (ProviderResult.err e) =
      ({ sid := none, friendly_name := none, status := none, type_ := none,
         date_created := none, date_updated := none, error := some e },
       [log_error "twilio_account_info" ("Error getting account info: " ++ e) none]) := rfl

/-- C4: on a successful search whose provider response honors the
requested limit (at most `limit` results, the SDK contract of
`list(limit=...)`), the returned `has_more` flag is `true` iff the number
of returned results equals `limit`. -/
theorem search_has_more_iff_count_eq_limit (numbers : List AvailableNumber)
    (limit : Nat) (h : numbers.length ≤ limit) :
    ((search_phone_numbers (ProviderResult.ok numbers) limit).1.2 = true ↔
     (search_phone_numbers (ProviderResult.ok numbers) limit).1.1.length = limit) := by
  simp [search_phone_numbers]
  omega

/-- C4 (witness). -/
theorem search_has_more_iff_count_eq_limit_witness :
    [sampleAvailable, sampleAvailable].length ≤ 2 ∧
    ((search_phone_numbers (ProviderResult.ok [sampleAvailable, sampleAvailable]) 2).1.2 = true ↔
     (search_phone_numbers (ProviderResult.ok [sampleAvailable, sampleAvailable]) 2).1.1.length = 2) :=
  ⟨by decide,
   search_has_more_iff_count_eq_limit [sampleAvailable, sampleAvailable] 2 (by decide)⟩

/-- C5: a purchase rejected by the provider logs one purchase record with
status `'failed'` carrying the error text, and returns `success=false`,
the error text, and the same phone number echoed back. -/
theorem purchase_failure_path (e phone_number : String) :
    purchase_phone_number (ProviderResult.err e) phone_number =
      ({ success := false, sid := none, phone_number := some phone_number,
         friendly_name := none, date_created := none, capabilities := none,
         error := some ("Error purchasing phone number: " ++ e) },
       [log_purchase phone_number "failed" none none
         (some ("Error purchasing phone number: " ++ e))]) := rfl

/-- C6: `release_phone_number` fetches before deleting (the delete-failure
case carries an already-fetched number, and the success log uses the
fetched phone-number string); a failure of either step returns `False` and
logs one error record instead of raising. -/
theorem release_fetch_then_delete_paths :
    (∀ e sid, release_phone_number (ReleaseProvider.fetchErr e) sid =
      (false, [log_error "twilio_release" ("Error releasing phone number: " ++ e) none])) ∧
    (∀ n e sid, release_phone_number (ReleaseProvider.deleteErr n e) sid =
      (false, [log_error "twilio_release" ("Error releasing phone number: " ++ e) none])) ∧
    (∀ n sid, release_phone_number (ReleaseProvider.ok n) sid =
      (true, [log_purchase n.phone_number "released" none (some sid) none])) :=
  ⟨fun _ _ => rfl, fun _ _ _ => rfl, fun _ _ => rfl⟩

/-- C7 (counterexample): a day file holding valid JSON that is not an
array (e.g. a JSON object) is NOT recovered: the write raises
`AttributeError` instead of succeeding with one record. -/
theorem write_json_log_nonlist_counterexample :
    _write_json_log true ParsedFile.jsonNonList
      (LogRecord.error { type_ := "t", message := "m", details := [] })
      "2026-01-01T00:00:00" = Except.error PyError.attributeError := rfl

/-- C7 (amended): a missing file or one whose content fails JSON parsing
is treated as the empty sequence, so the write succeeds and leaves exactly
one (freshly stamped) record; a parseable file yields an append; but a
file holding valid JSON that is not an array makes the write raise
`AttributeError`; disabled logging writes nothing. -/
theorem write_json_log_recovery_paths :
    (∀ r now, _write_json_log true ParsedFile.missing r now =
      Except.ok (some [{ record := r, timestamp := now }])) ∧
    (∀ r now, _write_json_log true ParsedFile.notJson r now =
      Except.ok (some [{ record := r, timestamp := now }])) ∧
    (∀ logs r now, _write_json_log true (ParsedFile.jsonList logs) r now =
      Except.ok (some (logs ++ [{ record := r, timestamp := now }]))) ∧
    (∀ r now, _write_json_log true ParsedFile.jsonNonList r now =
      Except.error PyError.attributeError) ∧
    (∀ file r now, _write_json_log false file r now = Except.ok none) :=
  ⟨fun _ _ => rfl, fun _ _ => rfl, fun _ _ _ => rfl, fun _ _ => rfl, fun _ _ _ => rfl⟩

/-- C8: an SDK search rejected by the provider returns the empty sequence
and a `false` has-more flag, and logs exactly one error record; the
exception is caught at the method boundary (the embedding returns a plain
value, never an `Except.error`). -/
theorem search_provider_error_normalized (e : String) (limit : Nat) :
    search_phone_numbers (ProviderResult.err e) limit =
      (([], false),
       [log_error "twilio_search" ("Error searching for phone numbers: " ++ e) none]) := rfl

/-- C9: on the raw-HTTP search path a transport-level failure is not
caught and propagates to the caller (`Except.error`), whereas the
SDK-based search normalizes every provider rejection into a plain
`([], false)` return. -/
theorem raw_search_transport_error_propagates :
    (∀ msg, search_phone_numbers_raw (RawHttp.transportError msg) = Except.error msg) ∧
    (∀ e limit, (search_phone_numbers (ProviderResult.err e) limit).1 = ([], false)) :=
  ⟨fun _ => rfl, fun _ _ => rfl⟩

/-- C10: when a (truthy) url and a twiml are both supplied to `make_call`,
the outcome is identical to supplying the url alone — the request carries
only the url and the twiml is silently ignored, with no validation or
rejection. -/
theorem make_call_url_precedence (resp : ProviderResult CallResource)
    (from_number to_number u : String) (twiml : Option String) (h : u ≠ "") :
    (make_call resp from_number to_number (some u) twiml =
      make_call resp from_number to_number (some u) none) ∧
    (make_call resp from_number to_number (some u) twiml).1 =
      [("to", to_number), ("from_", from_number), ("url", u)] := by
  have hu : truthyOptStr (some u) = true := by simp [truthyOptStr, h]
  cases resp <;> simp [make_call, hu]

/-- C10 (witness). -/
theorem make_call_url_precedence_witness :
    ("http" ≠ "") ∧
    ((make_call (ProviderResult.err "E") "+15550001" "+15550002" (some "http") (some "xml") =
       make_call (ProviderResult.err "E") "+15550001" "+15550002" (some "http") none) ∧
     (make_call (ProviderResult.err "E") "+15550001" "+15550002" (some "http") (some "xml")).1 =
       [("to", "+15550002"), ("from_", "+15550001"), ("url", "http")]) :=
  ⟨by decide,
   make_call_url_precedence (ProviderResult.err "E") "+15550001" "+15550002" "http"
     (some "xml") (by decide)⟩

end TwilioManager
